import Mathlib

/-!
Shallow embedding of the tool layer of the research/email multi-agent system
(`tools.py`, `email_agent.py`, `research_agent.py`) and proofs about it.

Conventions:
* Python strings are Lean `String`s; per-character work is done on `List Char`.
* `time.time()` values are rationals (`ℚ`).
* Python functions that may raise are embedded as `Except`-valued functions.
* External effects (the HTTP response of the search API, the outcome of a
  Gmail authentication attempt, the nested agent run) are passed in as
  explicit oracle arguments, so the embedded functions stay pure.
-/

namespace MultiAgent

/-! ### Input sanitizer (`tools.sanitize_input`) -/

/-- The characters removed by `re.sub(r'[<>\"\x27\\]', '', text)`. -/
def dangerousChars : List Char := ['<', '>', '"', '\'', '\\']

/-- ASCII whitespace stripped by Python `str.strip()` (for the ASCII inputs
modelled here). -/
def isPyWhitespace (c : Char) : Bool :=
  c = ' ' || c = '\t' || c = '\n' || c = '\r' || c = '\x0b' || c = '\x0c'

/-- `str.strip()` on a character list: drop whitespace at both ends. -/
def pyStripList (l : List Char) : List Char :=
  ((l.dropWhile isPyWhitespace).reverse.dropWhile isPyWhitespace).reverse

/-- `str.strip()` on strings. -/
def pyStrip (s : String) : String :=
  String.mk (pyStripList s.toList)

/-- Embedding of `tools.sanitize_input(text, max_length=1000)`:
returns `""` for falsy input, otherwise removes the dangerous characters,
truncates to `max_length`, and strips surrounding whitespace. -/
def sanitize_input (text : String) (max_length : Nat := 1000) : String :=
  if text = "" then ""
  else
    let removed := text.toList.filter (fun c => ¬ c ∈ dangerousChars)
    let truncated := removed.take max_length
    String.mk (pyStripList truncated)

/-- Spec-side sanitizer, modelled from the spec sentence alone:
"Removes characters from the set < > \" ' \\ anywhere in the string;
truncates to max_length if exceeded" — with no final strip. -/
def sanitize_spec (text : String) (max_length : Nat := 1000) : String :=
  String.mk ((text.toList.filter (fun c => ¬ c ∈ dangerousChars)).take max_length)

/-! ### Rate limiter (`tools.rate_limit`) -/

/-- One entry of `RATE_LIMITS` (the mutable per-service state). -/
structure RateLimitConfig where
  max_requests : Nat
  window : Nat
  last_request : ℚ
  request_count : Nat
deriving Repr, DecidableEq

/-- The `"tavily"` entry of `RATE_LIMITS` at module load. -/
def tavilyInitialConfig : RateLimitConfig :=
  { max_requests := 10, window := 60, last_request := 0, request_count := 0 }

/-- One execution of the `rate_limit` wrapper body at time `now`:
returns the mutated state and `true` when the wrapped call is admitted,
`false` when the rate-limit exception is raised. -/
def rate_limit_step (cfg : RateLimitConfig) (now : ℚ) : RateLimitConfig × Bool :=
  let cfg1 :=
    if now - cfg.last_request > (cfg.window : ℚ) then
      { cfg with request_count := 0, last_request := now }
    else cfg
  if cfg1.request_count ≥ cfg1.max_requests then
    (cfg1, false)
  else
    ({ cfg1 with request_count := cfg1.request_count + 1 }, true)

/-- Run the rate limiter over a sequence of call times, collecting the
admit/reject decision of each call. -/
def rate_limit_run (cfg : RateLimitConfig) : List ℚ → RateLimitConfig × List Bool
  | [] => (cfg, [])
  | t :: ts =>
    let (cfg1, ok) := rate_limit_step cfg t
    let (cfg2, oks) := rate_limit_run cfg1 ts
    (cfg2, ok :: oks)

/-! ### Mock search results (`tools._generate_mock_search_results`) -/

/-- One formatted search result (title/url/content/score dictionary). -/
structure SearchResult where
  title : String
  url : String
  content : String
  score : ℚ
deriving Repr, DecidableEq

/-- Embedding of `_generate_mock_search_results(query)`. -/
def generate_mock_search_results (query : String) : List SearchResult :=
  [ { title := "Research Article about " ++ query
    , url := "https://example.com/research"
    , content := "This is a mock research article about " ++ query ++
        ". The content discusses key aspects and recent developments in this field."
    , score := 9/10 }
  , { title := "News Report on " ++ query
    , url := "https://example.com/news"
    , content := "Recent news coverage about " ++ query ++
        " including updates and analysis from experts in the field."
    , score := 8/10 }
  , { title := "Technical Documentation for " ++ query
    , url := "https://example.com/docs"
    , content := "Technical documentation and implementation details for " ++ query ++
        " including code examples and best practices."
    , score := 7/10 }
  , { title := "AI Summary"
    , url := ""
    , content := "Based on research about " ++ query ++
        ", here are the key findings: This topic involves multiple aspects that are currently being studied and developed. Recent developments show promising advancements in this area."
    , score := 19/20 } ]

/-! ### Email validation (`tools.validate_email_addresses_tool`) -/

/-- Character class `[a-zA-Z0-9._%+-]` (the local part of the email regex). -/
def isLocalChar (c : Char) : Bool :=
  c.isAlpha || c.isDigit || c = '.' || c = '_' || c = '%' || c = '+' || c = '-'

/-- Character class `[a-zA-Z0-9.-]` (the domain part of the email regex). -/
def isDomainChar (c : Char) : Bool :=
  c.isAlpha || c.isDigit || c = '.' || c = '-'

/-- Matcher for the tail `[a-zA-Z0-9.-]+\.[a-zA-Z]{2,}$` of the email regex:
there is a split `pre ++ '.' :: tld` with `pre` nonempty in the domain class
and `tld` at least two alphabetic characters. -/
def domainTailMatches (d : List Char) : Bool :=
  (List.range d.length).any fun i =>
    decide (0 < i) && (d.take i).all isDomainChar &&
    (d.get? i == some '.') &&
    (let tld := d.drop (i + 1)
     decide (2 ≤ tld.length) && tld.all Char.isAlpha)

/-- Matcher for the full regex
`^[a-zA-Z0-9._%+-]+@[a-zA-Z0-9.-]+\.[a-zA-Z]{2,}$` used by
`validate_email_addresses_tool` (since `@` belongs to neither character
class, a match decomposes at an occurrence of `@`). -/
def matchesEmailRegex (s : String) : Bool :=
  let cs := s.toList
  (List.range cs.length).any fun j =>
    decide (0 < j) && (cs.take j).all isLocalChar &&
    (cs.get? j == some '@') &&
    domainTailMatches (cs.drop (j + 1))

/-- `email.split('@')[1]`: the segment between the first and second `@`. -/
def domainOf (s : String) : String :=
  match s.toList.splitOn '@' with
  | _ :: d :: _ => String.mk d
  | _ => ""

/-- `re.search(r'cc', domain)` for a doubled character `c`: is there an
adjacent pair of `c`s? -/
def hasDoubled (c : Char) : List Char → Bool
  | a :: b :: rest => (a = c && b = c) || hasDoubled c (b :: rest)
  | _ => false

/-- The six suspicious-domain patterns checked with `re.search`:
double dot, double dash, leading dash, trailing dash, trailing dot,
leading dot. -/
def isSuspiciousDomain (d : String) : Bool :=
  let cs := d.toList
  hasDoubled '.' cs || hasDoubled '-' cs ||
  (cs.head? == some '-') || (cs.getLast? == some '-') ||
  (cs.getLast? == some '.') || (cs.head? == some '.')

/-- Classification of one (already sanitized) address by the body of the
validation loop. -/
inductive EmailClass where
  | valid
  | invalid
  | suspicious
deriving Repr, DecidableEq

/-- The per-address decision of `validate_email_addresses_tool`, applied to
the sanitized address: regex mismatch or over-long ⇒ invalid; suspicious
domain ⇒ suspicious; otherwise valid. -/
def classifyEmail (email : String) : EmailClass :=
  if ¬ matchesEmailRegex email then .invalid
  else if 254 < email.length then .invalid
  else if 253 < (domainOf email).length then .invalid
  else if isSuspiciousDomain (domainOf email) then .suspicious
  else .valid

/-- Result dictionary of `validate_email_addresses_tool`. -/
structure EmailValidationResult where
  valid_emails : List String
  invalid_emails : List String
  suspicious_emails : List String
  total_valid : Nat
  total_invalid : Nat
  total_suspicious : Nat
deriving Repr, DecidableEq

/-- The main loop of `validate_email_addresses_tool`: sanitize each address
(max_length 254), classify it, and append it to the list of its class. -/
def validateLoop : List String → List String × List String × List String
  | [] => ([], [], [])
  | e :: rest =>
    let e1 := sanitize_input e 254
    let (v, i, s) := validateLoop rest
    match classifyEmail e1 with
    | .valid => (e1 :: v, i, s)
    | .invalid => (v, e1 :: i, s)
    | .suspicious => (v, i, e1 :: s)

/-- Embedding of `validate_email_addresses_tool(emails)`. -/
def validate_email_addresses_tool (emails : List String) : EmailValidationResult :=
  let (v, i, s) := validateLoop emails
  { valid_emails := v
  , invalid_emails := i
  , suspicious_emails := s
  , total_valid := v.length
  , total_invalid := i.length
  , total_suspicious := s.length }

/-! ### Web search (`tools.search_web_tool`) -/

/-- The placeholder API keys recognised in `search_web_tool`. -/
def placeholderKeys : List String := ["your_tavily_api_key_here", "test_key"]

/-- One raw result dictionary from the search API JSON, with the
`.get(..., "")` defaults already applied. -/
structure TavilyRawResult where
  title : String
  url : String
  content : String
deriving Repr, DecidableEq

/-- Oracle for the outcome of the HTTP POST to the search API:
either the request (or response handling) raised, or a response with a
status code, result list and answer string arrived. -/
inductive HttpOutcome where
  | failure (msg : String)
  | response (status : Nat) (results : List TavilyRawResult) (answer : String)

/-- Exceptions observable from the decorated search tool. -/
inductive SearchError where
  | rateLimited
  | valueError (msg : String)
deriving Repr, DecidableEq

/-- Formatting of a 200 response: position-based scores
`max (1 - idx * 0.05) 0.1`, then the "AI Summary" entry when the answer is
truthy and requested. -/
def formatTavilyResults (results : List TavilyRawResult) (answer : String)
    (include_answer : Bool) : List SearchResult :=
  let formatted := results.enum.map fun p =>
    { title := p.2.title, url := p.2.url, content := p.2.content
      , score := max (1 - (p.1 : ℚ) * (1/20)) (1/10) }
  if answer ≠ "" ∧ include_answer then
    formatted ++
      [{ title := "AI Summary", url := "", content := answer, score := 19/20 }]
  else formatted

/-- Body of `search_web_tool` (the function under the decorator).
The returned `Bool` records whether the HTTP request was issued. -/
def search_web_body (api_key query : String) (include_answer : Bool)
    (http : HttpOutcome) : Bool × Except SearchError (List SearchResult) :=
  if api_key = "" ∨ pyStrip api_key ∈ placeholderKeys then
    (false, .ok (generate_mock_search_results query))
  else
    let q := sanitize_input query 500
    if q = "" then
      (false, .error (.valueError "Query cannot be empty after sanitization"))
    else
      match http with
      | .failure _ => (true, .ok (generate_mock_search_results q))
      | .response status results answer =>
        if status = 429 then (true, .ok (generate_mock_search_results q))
        else if status = 401 then (true, .ok (generate_mock_search_results q))
        else if status ≠ 200 then (true, .ok (generate_mock_search_results q))
        else (true, .ok (formatTavilyResults results answer include_answer))

/-- Embedding of the decorated `search_web_tool`: the `rate_limit("tavily")`
wrapper runs first and may raise before the body is entered. Returns the
mutated rate-limit state, whether an HTTP request was issued, and the
result or exception. -/
def search_web_tool (cfg : RateLimitConfig) (now : ℚ) (api_key query : String)
    (include_answer : Bool) (http : HttpOutcome) :
    RateLimitConfig × Bool × Except SearchError (List SearchResult) :=
  let step := rate_limit_step cfg now
  if step.2 then
    let body := search_web_body api_key query include_answer http
    (step.1, body.1, body.2)
  else
    (step.1, false, .error .rateLimited)

/-! ### Gmail authentication (`tools.authenticate_gmail_tool`) -/

/-- Result of the authentication tool: success payload, the fail-fast
missing-credentials exception, or the final exception naming the attempt
count. -/
inductive AuthResult where
  | ok (info : String)
  | credsMissing (path : String)
  | failedAfter (attempts : Nat) (err : String)
  | noReturn
deriving Repr, DecidableEq

/-- The retry loop of `authenticate_gmail_tool`. `outcome k` is the oracle
for attempt number `k` (0-based): `.ok` when the attempt body returns,
`.error` when it raises. Returns the result together with the number of
`time.sleep(retry_delay)` delays performed and the number of attempt
bodies entered. -/
def authLoop (outcome : Nat → Except String String) (maxRetries : Nat) :
    Nat → Nat → AuthResult × Nat × Nat
  | _, 0 => (.noReturn, 0, 0)
  | attemptIdx, remaining + 1 =>
    match outcome attemptIdx with
    | .ok info => (.ok info, 0, 1)
    | .error e =>
      if attemptIdx < maxRetries - 1 then
        let (res, d, a) := authLoop outcome maxRetries (attemptIdx + 1) remaining
        (res, d + 1, a + 1)
      else
        (.failedAfter maxRetries e, 0, 1)

/-- Embedding of `authenticate_gmail_tool`: fail fast when the credentials
file does not exist, otherwise run up to `max_retries = 3` attempts with a
fixed delay between them. Returns (result, delays performed, attempt
bodies entered). -/
def authenticate_gmail_tool (credentials_path : String) (credsExists : Bool)
    (outcome : Nat → Except String String) : AuthResult × Nat × Nat :=
  if ¬ credsExists then (.credsMissing credentials_path, 0, 0)
  else authLoop outcome 3 0 3

/-! ### Email Agent draft tool (`email_agent.create_gmail_draft`) -/

/-- Oracle for `create_gmail_draft_tool` (authentication, message build and
network draft creation): the draft info on success, or the raised message. -/
def DraftToolOutcome := Except String String

/-- Structured result of the agent tool `create_gmail_draft`. -/
inductive CreateDraftResult where
  | invalidRecipients (valid invalid : List String)
  | created (info : String)
  | toolError (msg : String)
deriving Repr, DecidableEq

/-- The combined invalid list built by `create_gmail_draft`:
invalids of `to`, extended by invalids of `cc` and `bcc` when those
arguments are truthy (non-`None` and non-empty). -/
def combinedInvalid (tos : List String) (cc bcc : Option (List String)) :
    List String :=
  let fromOpt : Option (List String) → List String := fun o =>
    match o with
    | some l => if l ≠ [] then (validate_email_addresses_tool l).invalid_emails else []
    | none => []
  (validate_email_addresses_tool tos).invalid_emails ++ fromOpt cc ++ fromOpt bcc

/-- Embedding of the Email Agent tool `create_gmail_draft`: validate all
recipients first; any invalid address short-circuits with a structured
failure; otherwise call the draft tool, converting its exception into a
structured failure. The returned `Bool` records whether
`create_gmail_draft_tool` was invoked. -/
def create_gmail_draft (tos : List String) (cc bcc : Option (List String))
    (draftTool : DraftToolOutcome) : Bool × CreateDraftResult :=
  let inv := combinedInvalid tos cc bcc
  if inv ≠ [] then
    (false, .invalidRecipients (validate_email_addresses_tool tos).valid_emails inv)
  else
    match draftTool with
    | .ok info => (true, .created info)
    | .error e => (true, .toolError e)

/-! ### Research Agent delegation (`research_agent.delegate_to_email_agent`) -/

/-- The `AgentDelegationResponse` model. -/
structure AgentDelegationResponse where
  success : Bool
  agent_response : String
  target_agent : String
deriving Repr, DecidableEq

/-- Embedding of `delegate_to_email_agent`: the nested Email-Agent run is an
oracle (`.ok output` when it returns, `.error msg` when it raises); the
exception is converted into a failure response, never re-raised. -/
def delegate_to_email_agent (runResult : Except String String) :
    AgentDelegationResponse :=
  match runResult with
  | .ok out =>
    { success := true, agent_response := out, target_agent := "email_agent" }
  | .error e =>
    { success := false, agent_response := "Delegation failed: " ++ e
      , target_agent := "email_agent" }

/-! ## Helper lemmas -/

theorem pyStripList_length_le (l : List Char) :
    (pyStripList l).length ≤ l.length := by
  unfold pyStripList
  calc (((l.dropWhile isPyWhitespace).reverse.dropWhile isPyWhitespace).reverse).length
      = ((l.dropWhile isPyWhitespace).reverse.dropWhile isPyWhitespace).length :=
        List.length_reverse _
    _ ≤ (l.dropWhile isPyWhitespace).reverse.length :=
        (List.dropWhile_sublist _).length_le
    _ = (l.dropWhile isPyWhitespace).length := List.length_reverse _
    _ ≤ l.length := (List.dropWhile_sublist _).length_le

theorem mem_of_mem_pyStripList {c : Char} {l : List Char}
    (h : c ∈ pyStripList l) : c ∈ l := by
  unfold pyStripList at h
  rw [List.mem_reverse] at h
  have h1 := (List.dropWhile_sublist isPyWhitespace).mem h
  rw [List.mem_reverse] at h1
  exact (List.dropWhile_sublist isPyWhitespace).mem h1

/-! ## C9 -/

/-- Counterexample to C9 as stated: the claim describes the output as the
input with dangerous characters removed and truncated (this is
`sanitize_spec`), but `sanitize_input " a "` also strips the surrounding
whitespace, giving `"a"` rather than `" a "`. -/
theorem sanitize_input_no_strip_counterexample :
    sanitize_input " a " 1000 ≠ sanitize_spec " a " 1000 := by decide

/-- C9 (amended): `sanitize_input` removes the characters `< > " ' \`,
truncates to `max_length`, and then also strips leading/trailing
whitespace; the result never contains a dangerous character, never exceeds
`max_length`, and empty input yields empty output (the function is total,
so it never raises). -/
theorem sanitize_input_spec (text : String) (m : Nat) :
    sanitize_input text m = pyStrip (sanitize_spec text m) ∧
    (∀ c ∈ (sanitize_input text m).toList, c ∉ dangerousChars) ∧
    (sanitize_input text m).length ≤ m ∧
    (text = "" → sanitize_input text m = "") := by
  refine ⟨?_, ?_, ?_, ?_⟩
  · by_cases h : text = ""
    · simp [sanitize_input, sanitize_spec, pyStrip, pyStripList, h, List.take_nil]
    · simp [sanitize_input, sanitize_spec, pyStrip, h]
  · intro c hc
    by_cases h : text = ""
    · simp [sanitize_input, h] at hc
    · simp only [sanitize_input, if_neg h] at hc
      have h1 : c ∈ (text.toList.filter
          (fun c => decide (¬ c ∈ dangerousChars))).take m :=
        mem_of_mem_pyStripList hc
      have h2 := List.mem_of_mem_take h1
      rw [List.mem_filter] at h2
      simpa using h2.2
  · by_cases h : text = ""
    · simp [sanitize_input, h]
    · simp only [sanitize_input, if_neg h]
      calc (String.mk (pyStripList
            ((text.toList.filter (fun c => decide (¬ c ∈ dangerousChars))).take m))).length
          ≤ ((text.toList.filter (fun c => decide (¬ c ∈ dangerousChars))).take m).length :=
            pyStripList_length_le _
        _ ≤ m := by simp [List.length_take]
  · intro h
    simp [sanitize_input, h]

/-- Witness for C9 at a concrete input. -/
theorem sanitize_input_spec_witness :
    sanitize_input "ab" 5 = pyStrip (sanitize_spec "ab" 5) ∧
    sanitize_input "" 5 = "" :=
  ⟨(sanitize_input_spec "ab" 5).1, (sanitize_input_spec "" 5).2.2.2 rfl⟩

/-! ## C3 -/

/-- Counterexample to C3 as stated: an accepted call that does not reset
the window increments `request_count` but leaves `last_request` unchanged,
so `last_request_timestamp` is NOT updated to `now` on every accepted
call. Here a call at time 10 against the fresh state (window start 0,
window 60) is accepted, yet `last_request` stays 0. -/
theorem rate_limit_last_request_counterexample :
    (rate_limit_step tavilyInitialConfig 10).2 = true ∧
    (rate_limit_step tavilyInitialConfig 10).1.last_request ≠ 10 := by
  constructor
  · norm_num [rate_limit_step, tavilyInitialConfig]
  · norm_num [rate_limit_step, tavilyInitialConfig]

/-- C3 (amended): `request_count` is reset to 0 whenever
`now − last_request > window` (and `last_request` is then set to `now`);
a call is rejected exactly when the (post-reset) `request_count` has
reached `max_requests`; an accepted call increments `request_count`; but
`last_request` is updated to `now` only on a window reset — on an
accepted call inside the current window it is left unchanged. -/
theorem rate_limit_step_spec (cfg : RateLimitConfig) (now : ℚ) :
    (now - cfg.last_request > (cfg.window : ℚ) →
      ((0 < cfg.max_requests →
        rate_limit_step cfg now =
          ({ cfg with request_count := 1, last_request := now }, true)) ∧
       (cfg.max_requests = 0 →
        rate_limit_step cfg now =
          ({ cfg with request_count := 0, last_request := now }, false)))) ∧
    (¬ now - cfg.last_request > (cfg.window : ℚ) →
      ((cfg.max_requests ≤ cfg.request_count →
         rate_limit_step cfg now = (cfg, false)) ∧
       (cfg.request_count < cfg.max_requests →
         rate_limit_step cfg now =
           ({ cfg with request_count := cfg.request_count + 1 }, true)))) := by
  constructor
  · intro h
    constructor
    · intro h2
      simp only [rate_limit_step, if_pos h]
      rw [if_neg]
      omega
    · intro h2
      simp only [rate_limit_step, if_pos h]
      rw [if_pos]
      omega
  · intro h
    constructor
    · intro h2
      simp only [rate_limit_step, if_neg h]
      rw [if_pos]
      exact h2
    · intro h2
      simp only [rate_limit_step, if_neg h]
      rw [if_neg]
      omega

/-- Witness for C3 at a concrete input: a call at time 10 on the fresh
state is inside the window, is accepted, and increments the counter. -/
theorem rate_limit_step_spec_witness :
    rate_limit_step tavilyInitialConfig 10 =
      ({ tavilyInitialConfig with request_count := 1 }, true) :=
  ((rate_limit_step_spec tavilyInitialConfig 10).2 (by norm_num [tavilyInitialConfig])).2
    (by norm_num [tavilyInitialConfig])

/-! ## C2 -/

/-- The validation loop produces, in each class, the classification-filtered
sequence of sanitized inputs, in input order. -/
theorem validateLoop_eq_filter (emails : List String) :
    validateLoop emails =
      ((emails.map fun e => sanitize_input e 254).filter
         (fun e => classifyEmail e == EmailClass.valid),
       (emails.map fun e => sanitize_input e 254).filter
         (fun e => classifyEmail e == EmailClass.invalid),
       (emails.map fun e => sanitize_input e 254).filter
         (fun e => classifyEmail e == EmailClass.suspicious)) := by
  induction emails with
  | nil => rfl
  | cons e rest ih =>
    simp only [validateLoop, ih, List.map_cons, List.filter_cons]
    cases h : classifyEmail (sanitize_input e 254) <;> simp [h]

/-- The three class lists of the validation loop always account for every
input address exactly once, so their lengths sum to the input length. -/
theorem validateLoop_length_sum (emails : List String) :
    (validateLoop emails).1.length + (validateLoop emails).2.1.length +
      (validateLoop emails).2.2.length = emails.length := by
  induction emails with
  | nil => rfl
  | cons e rest ih =>
    rcases hr : validateLoop rest with ⟨v, i, s⟩
    rw [hr] at ih
    cases h : classifyEmail (sanitize_input e 254) <;>
      simp only [validateLoop, hr, h] <;> simp at ih ⊢ <;> omega

/-- Counterexample to C2 as stated: the output lists hold the *sanitized*
addresses, so an input address that sanitization changes appears in none
of the three lists. The input `" a@b.com"` is classified valid, but what
is stored is the stripped form `"a@b.com"`, and the input string itself is
a member of no list. -/
theorem validate_email_membership_counterexample :
    " a@b.com" ∉ (validate_email_addresses_tool [" a@b.com"]).valid_emails ∧
    " a@b.com" ∉ (validate_email_addresses_tool [" a@b.com"]).invalid_emails ∧
    " a@b.com" ∉ (validate_email_addresses_tool [" a@b.com"]).suspicious_emails ∧
    (validate_email_addresses_tool [" a@b.com"]).valid_emails = ["a@b.com"] := by
  decide

/-- C2 (amended): each output list of `validate_email_addresses_tool` is the
classification-filtered sequence of *sanitized* input addresses in input
order; each count equals the length of its list; the counts sum to the
input length; each sanitized input address appears in exactly one of the
three lists; and the concrete example of the claim (whose addresses are
unchanged by sanitization) yields exactly the stated lists. -/
theorem validate_email_addresses_tool_spec (emails : List String) :
    (validate_email_addresses_tool emails).total_valid =
      (validate_email_addresses_tool emails).valid_emails.length ∧
    (validate_email_addresses_tool emails).total_invalid =
      (validate_email_addresses_tool emails).invalid_emails.length ∧
    (validate_email_addresses_tool emails).total_suspicious =
      (validate_email_addresses_tool emails).suspicious_emails.length ∧
    (validate_email_addresses_tool emails).total_valid +
      (validate_email_addresses_tool emails).total_invalid +
      (validate_email_addresses_tool emails).total_suspicious = emails.length ∧
    (validate_email_addresses_tool emails).valid_emails =
      (emails.map fun e => sanitize_input e 254).filter
        (fun e => classifyEmail e == EmailClass.valid) ∧
    (validate_email_addresses_tool emails).invalid_emails =
      (emails.map fun e => sanitize_input e 254).filter
        (fun e => classifyEmail e == EmailClass.invalid) ∧
    (validate_email_addresses_tool emails).suspicious_emails =
      (emails.map fun e => sanitize_input e 254).filter
        (fun e => classifyEmail e == EmailClass.suspicious) ∧
    (∀ e ∈ emails,
      (sanitize_input e 254 ∈ (validate_email_addresses_tool emails).valid_emails ∧
       sanitize_input e 254 ∉ (validate_email_addresses_tool emails).invalid_emails ∧
       sanitize_input e 254 ∉ (validate_email_addresses_tool emails).suspicious_emails) ∨
      (sanitize_input e 254 ∉ (validate_email_addresses_tool emails).valid_emails ∧
       sanitize_input e 254 ∈ (validate_email_addresses_tool emails).invalid_emails ∧
       sanitize_input e 254 ∉ (validate_email_addresses_tool emails).suspicious_emails) ∨
      (sanitize_input e 254 ∉ (validate_email_addresses_tool emails).valid_emails ∧
       sanitize_input e 254 ∉ (validate_email_addresses_tool emails).invalid_emails ∧
       sanitize_input e 254 ∈ (validate_email_addresses_tool emails).suspicious_emails)) ∧
    validate_email_addresses_tool
        ["valid@example.com", "invalid-email", "another.valid@domain.co.uk",
         "@nodomain.com"] =
      { valid_emails := ["valid@example.com", "another.valid@domain.co.uk"]
        , invalid_emails := ["invalid-email", "@nodomain.com"]
        , suspicious_emails := []
        , total_valid := 2, total_invalid := 2, total_suspicious := 0 } := by
  have hfil := validateLoop_eq_filter emails
  have hsum := validateLoop_length_sum emails
  refine ⟨rfl, rfl, rfl, ?_, ?_, ?_, ?_, ?_, by decide⟩
  · simpa [validate_email_addresses_tool] using hsum
  · simp [validate_email_addresses_tool, hfil]
  · simp [validate_email_addresses_tool, hfil]
  · simp [validate_email_addresses_tool, hfil]
  · intro e he
    have hmem : sanitize_input e 254 ∈ emails.map fun e => sanitize_input e 254 :=
      List.mem_map_of_mem _ he
    simp only [validate_email_addresses_tool, hfil]
    cases h : classifyEmail (sanitize_input e 254) with
    | valid =>
      left
      refine ⟨?_, ?_, ?_⟩ <;> simp [List.mem_filter, hmem, h]
    | invalid =>
      right; left
      refine ⟨?_, ?_, ?_⟩ <;> simp [List.mem_filter, hmem, h]
    | suspicious =>
      right; right
      refine ⟨?_, ?_, ?_⟩ <;> simp [List.mem_filter, hmem, h]

/-- Witness for C2 at a concrete input. -/
theorem validate_email_addresses_tool_spec_witness :
    (validate_email_addresses_tool ["valid@example.com"]).total_valid +
      (validate_email_addresses_tool ["valid@example.com"]).total_invalid +
      (validate_email_addresses_tool ["valid@example.com"]).total_suspicious = 1 :=
  (validate_email_addresses_tool_spec ["valid@example.com"]).2.2.2.1

/-! ## C8 -/

/-- Calls inside the current window are all accepted while the quota lasts:
starting from window start `t0` with `k` requests already counted, a
sequence of calls at times within the window accepts every call and adds
its length to the counter, leaving the window start unchanged. -/
theorem rate_limit_run_within (mx window : Nat) (t0 : ℚ) :
    ∀ (times : List ℚ) (k : Nat),
      (∀ t ∈ times, t - t0 ≤ (window : ℚ)) →
      k + times.length ≤ mx →
      rate_limit_run ⟨mx, window, t0, k⟩ times =
        (⟨mx, window, t0, k + times.length⟩, List.replicate times.length true) := by
  intro times
  induction times with
  | nil => intro k _ _; simp [rate_limit_run]
  | cons t ts ih =>
    intro k hwin hk
    have hno : ¬ t - t0 > (window : ℚ) := not_lt.mpr (hwin t (by simp))
    have hk1 : k < mx := by simp only [List.length_cons] at hk; omega
    have hstep : rate_limit_step ⟨mx, window, t0, k⟩ t =
        (⟨mx, window, t0, k + 1⟩, true) := by
      simp only [rate_limit_step]
      rw [if_neg hno, if_neg (by omega : ¬ k ≥ mx)]
    have hrest := ih (k + 1) (fun u hu => hwin u (by simp [hu]))
      (by simp only [List.length_cons] at hk; omega)
    simp only [rate_limit_run, hstep, hrest, List.length_cons, List.replicate_succ]
    refine Prod.ext ?_ rfl
    simp only [RateLimitConfig.mk.injEq]
    refine ⟨trivial, trivial, trivial, by omega⟩

/-- C8: starting from a fresh window (window start `t0`, counter 0),
`max_requests` calls at times within `window` seconds of `t0` are all
accepted; a further call still inside the window is rejected and leaves
the counter at `max_requests` (no gradual decay); and a call made more
than `window` seconds after the window start and after every accepted
request resets the counter completely and is accepted, leaving the
counter at exactly 1. -/
theorem rate_limit_fixed_window (mx window : Nat) (hmx : 0 < mx) (t0 : ℚ)
    (times : List ℚ) (hlen : times.length = mx)
    (hwin : ∀ t ∈ times, t - t0 ≤ (window : ℚ))
    (trej : ℚ) (hrej : trej - t0 ≤ (window : ℚ))
    (tnew : ℚ) (hnew : ∀ t ∈ t0 :: times, tnew - t > (window : ℚ)) :
    (rate_limit_run ⟨mx, window, t0, 0⟩ times).2 = List.replicate mx true ∧
    (rate_limit_run ⟨mx, window, t0, 0⟩ times).1 = ⟨mx, window, t0, mx⟩ ∧
    (rate_limit_step (rate_limit_run ⟨mx, window, t0, 0⟩ times).1 trej).2 = false ∧
    (rate_limit_step (rate_limit_run ⟨mx, window, t0, 0⟩ times).1 trej).1.request_count
      = mx ∧
    (rate_limit_step (rate_limit_run ⟨mx, window, t0, 0⟩ times).1 tnew).2 = true ∧
    (rate_limit_step (rate_limit_run ⟨mx, window, t0, 0⟩ times).1 tnew).1 =
      ⟨mx, window, tnew, 1⟩ := by
  have hrun := rate_limit_run_within mx window t0 times 0 hwin (by omega)
  have hstate : (rate_limit_run ⟨mx, window, t0, 0⟩ times).1 = ⟨mx, window, t0, mx⟩ := by
    rw [hrun]; simp [hlen]
  have hnoreset : ¬ trej - t0 > (window : ℚ) := not_lt.mpr hrej
  have hreset : tnew - t0 > (window : ℚ) := hnew t0 (by simp)
  refine ⟨by rw [hrun]; simp [hlen], hstate, ?_, ?_, ?_, ?_⟩
  · rw [hstate]
    simp only [rate_limit_step]
    rw [if_neg hnoreset, if_pos (by simp)]
  · rw [hstate]
    simp only [rate_limit_step]
    rw [if_neg hnoreset, if_pos (by simp)]
  · rw [hstate]
    simp only [rate_limit_step]
    rw [if_pos hreset, if_neg (by simp; omega)]
  · rw [hstate]
    simp only [rate_limit_step]
    rw [if_pos hreset, if_neg (by simp; omega)]

/-- Witness for C8 at a concrete scenario: quota 2 per 60 seconds, window
start 0, accepted calls at times 10 and 20, a rejected call at 30, and an
accepted call at 100 that resets the counter. -/
theorem rate_limit_fixed_window_witness :
    (rate_limit_run ⟨2, 60, 0, 0⟩ [10, 20]).2 = List.replicate 2 true ∧
    (rate_limit_step (rate_limit_run ⟨2, 60, 0, 0⟩ [10, 20]).1 30).2 = false ∧
    (rate_limit_step (rate_limit_run ⟨2, 60, 0, 0⟩ [10, 20]).1 100).2 = true ∧
    (rate_limit_step (rate_limit_run ⟨2, 60, 0, 0⟩ [10, 20]).1 100).1 =
      ⟨2, 60, 100, 1⟩ := by
  have h := rate_limit_fixed_window 2 60 (by norm_num) 0 [10, 20] rfl
    (by intro t ht; fin_cases ht <;> norm_num) 30 (by norm_num) 100
    (by intro t ht; fin_cases ht <;> norm_num)
  exact ⟨h.1, h.2.2.1, h.2.2.2.2.1, h.2.2.2.2.2⟩

/-! ## Rate-limit step helper lemmas -/

theorem rate_limit_step_accept_no_reset (cfg : RateLimitConfig) (now : ℚ)
    (hr : ¬ now - cfg.last_request > (cfg.window : ℚ))
    (hm : cfg.request_count < cfg.max_requests) :
    rate_limit_step cfg now =
      ({ cfg with request_count := cfg.request_count + 1 }, true) := by
  simp only [rate_limit_step]
  rw [if_neg hr, if_neg (by omega : ¬ cfg.request_count ≥ cfg.max_requests)]

theorem rate_limit_step_accept_reset (cfg : RateLimitConfig) (now : ℚ)
    (hr : now - cfg.last_request > (cfg.window : ℚ))
    (hm : 0 < cfg.max_requests) :
    rate_limit_step cfg now =
      ({ cfg with request_count := 1, last_request := now }, true) := by
  simp only [rate_limit_step]
  rw [if_pos hr, if_neg (by omega : ¬ 0 ≥ cfg.max_requests)]

theorem rate_limit_step_reject_no_reset (cfg : RateLimitConfig) (now : ℚ)
    (hr : ¬ now - cfg.last_request > (cfg.window : ℚ))
    (hm : cfg.max_requests ≤ cfg.request_count) :
    rate_limit_step cfg now = (cfg, false) := by
  simp only [rate_limit_step]
  rw [if_neg hr, if_pos hm]

theorem rate_limit_step_admit (cfg : RateLimitConfig) (now : ℚ)
    (hm : cfg.request_count < cfg.max_requests) :
    (rate_limit_step cfg now).2 = true := by
  by_cases hr : now - cfg.last_request > (cfg.window : ℚ)
  · rw [rate_limit_step_accept_reset cfg now hr (by omega)]
  · rw [rate_limit_step_accept_no_reset cfg now hr hm]

/-! ## C1 -/

/-- C1: for every non-empty, non-placeholder API key (and a rate-limit
state that admits the call), `search_web_tool` fails with the
query-empty `ValueError` exactly when the query is empty after
sanitization; every HTTP failure mode — 429, 401, any other non-200
status, or a network-level failure — yields the mock results for the
(sanitized) query instead of propagating; and the two concrete examples:
`search(api_key="x", query="")` raises the query-empty error while
`search(api_key="", query="test")` returns mock data without raising. -/
theorem search_web_tool_error_handling :
    (∀ (cfg : RateLimitConfig) (now : ℚ) (api query : String) (ia : Bool)
       (http : HttpOutcome),
      cfg.request_count < cfg.max_requests →
      api ≠ "" →
      pyStrip api ∉ placeholderKeys →
      (((search_web_tool cfg now api query ia http).2.2 =
          .error (.valueError "Query cannot be empty after sanitization") ↔
        sanitize_input query 500 = "") ∧
       (∀ msg, http = .failure msg → sanitize_input query 500 ≠ "" →
         (search_web_tool cfg now api query ia http).2.2 =
           .ok (generate_mock_search_results (sanitize_input query 500))) ∧
       (∀ s rs ans, http = .response s rs ans → s ≠ 200 →
         sanitize_input query 500 ≠ "" →
         (search_web_tool cfg now api query ia http).2.2 =
           .ok (generate_mock_search_results (sanitize_input query 500))))) ∧
    (∀ (cfg : RateLimitConfig) (now : ℚ) (http : HttpOutcome),
      cfg.request_count < cfg.max_requests →
      ((search_web_tool cfg now "x" "" true http).2.2 =
         .error (.valueError "Query cannot be empty after sanitization")) ∧
      ((search_web_tool cfg now "" "test" true http).2.2 =
         .ok (generate_mock_search_results "test"))) := by
  have hbody : ∀ (cfg : RateLimitConfig) (now : ℚ) (api query : String)
      (ia : Bool) (http : HttpOutcome), cfg.request_count < cfg.max_requests →
      (search_web_tool cfg now api query ia http).2 =
        search_web_body api query ia http := by
    intro cfg now api query ia http hm
    simp only [search_web_tool, rate_limit_step_admit cfg now hm, if_pos]
  constructor
  · intro cfg now api query ia http hm hapi hph
    rw [hbody cfg now api query ia http hm]
    simp only [search_web_body, if_neg (not_or.mpr ⟨hapi, hph⟩)]
    by_cases hq : sanitize_input query 500 = ""
    · rw [if_pos hq]
      refine ⟨by simp [hq], ?_, ?_⟩
      · intro msg hmsg hq2; exact absurd hq hq2
      · intro s rs ans hresp hs hq2; exact absurd hq hq2
    · rw [if_neg hq]
      refine ⟨?_, ?_, ?_⟩
      · simp only [iff_false_intro hq, iff_false]
        cases http with
        | failure msg => simp
        | response s rs ans =>
          by_cases h429 : s = 429
          · simp [h429]
          · by_cases h401 : s = 401
            · simp [h429, h401]
            · by_cases h200 : s = 200
              · simp [h429, h401, h200]
              · simp [h429, h401, h200]
      · intro msg hmsg _
        subst hmsg
        rfl
      · intro s rs ans hresp hs _
        subst hresp
        by_cases h429 : s = 429
        · simp [h429]
        · by_cases h401 : s = 401
          · simp [h429, h401]
          · simp [h429, h401, hs]
  · intro cfg now http hm
    constructor
    · rw [hbody cfg now "x" "" true http hm]
      simp only [search_web_body]
      rw [if_neg (by decide)]
      rw [if_pos (by rfl)]
    · rw [hbody cfg now "" "test" true http hm]
      simp only [search_web_body]
      rw [if_pos (by simp)]

/-- Witness for C1 at a concrete input: fresh rate-limit state, a network
failure outcome. -/
theorem search_web_tool_error_handling_witness :
    (search_web_tool tavilyInitialConfig 5 "x" "" true (.failure "down")).2.2 =
      .error (.valueError "Query cannot be empty after sanitization") ∧
    (search_web_tool tavilyInitialConfig 5 "" "test" true (.failure "down")).2.2 =
      .ok (generate_mock_search_results "test") :=
  search_web_tool_error_handling.2 tavilyInitialConfig 5 (.failure "down")
    (by norm_num [tavilyInitialConfig])

/-! ## C7 -/

/-- C7: with an empty or placeholder API key (and an admitting rate-limit
state), `search_web_tool` issues no HTTP request, its result does not
depend on the HTTP oracle at all, and it returns exactly the 4
deterministic mock entries: 3 topic-templated entries with scores
0.9, 0.8, 0.7 followed by a final "AI Summary" entry with score 0.95. -/
theorem search_web_tool_mock_results (cfg : RateLimitConfig) (now : ℚ)
    (api query : String) (ia : Bool) (http : HttpOutcome)
    (hm : cfg.request_count < cfg.max_requests)
    (hkey : api = "" ∨ pyStrip api ∈ placeholderKeys) :
    (search_web_tool cfg now api query ia http).2.1 = false ∧
    (∀ http', search_web_tool cfg now api query ia http =
       search_web_tool cfg now api query ia http') ∧
    (search_web_tool cfg now api query ia http).2.2 =
      .ok (generate_mock_search_results query) ∧
    (generate_mock_search_results query).length = 4 ∧
    (generate_mock_search_results query).map SearchResult.score =
      [9/10, 8/10, 7/10, 19/20] ∧
    (generate_mock_search_results query).map SearchResult.title =
      ["Research Article about " ++ query, "News Report on " ++ query,
       "Technical Documentation for " ++ query, "AI Summary"] := by
  have hbody : ∀ h : HttpOutcome, search_web_body api query ia h =
      (false, .ok (generate_mock_search_results query)) := by
    intro h
    simp only [search_web_body, if_pos hkey]
  have htool : ∀ h : HttpOutcome, search_web_tool cfg now api query ia h =
      ((rate_limit_step cfg now).1, false,
        .ok (generate_mock_search_results query)) := by
    intro h
    simp only [search_web_tool, rate_limit_step_admit cfg now hm, if_pos, hbody]
  refine ⟨by rw [htool], fun http' => by rw [htool, htool], by rw [htool], rfl, ?_, ?_⟩
  · simp [generate_mock_search_results]
  · simp [generate_mock_search_results]

/-- Witness for C7 at a concrete input: fresh state, empty API key,
network-failure oracle. -/
theorem search_web_tool_mock_results_witness :
    (search_web_tool tavilyInitialConfig 5 "" "llms" true (.failure "down")).2.2 =
      .ok (generate_mock_search_results "llms") ∧
    (generate_mock_search_results "llms").map SearchResult.score =
      [9/10, 8/10, 7/10, 19/20] :=
  ⟨(search_web_tool_mock_results tavilyInitialConfig 5 "" "llms" true
      (.failure "down") (by norm_num [tavilyInitialConfig]) (.inl rfl)).2.2.1,
   (search_web_tool_mock_results tavilyInitialConfig 5 "" "llms" true
      (.failure "down") (by norm_num [tavilyInitialConfig]) (.inl rfl)).2.2.2.2.1⟩

/-! ## C10 -/

/-- C10: every call to `search_web_tool` — for every API key and query,
including the mock-data path — goes through the `"tavily"` rate limiter
first: the resulting rate-limit state is exactly the limiter's mutation,
an admitted call increments the request counter by one (consuming one
unit of quota), and once `request_count ≥ max_requests` within the
current window the call yields the rate-limit exception instead of mock
results, with no HTTP request issued. -/
theorem search_web_tool_consumes_quota (cfg : RateLimitConfig) (now : ℚ)
    (api query : String) (ia : Bool) (http : HttpOutcome) :
    ((search_web_tool cfg now api query ia http).1 = (rate_limit_step cfg now).1) ∧
    ((rate_limit_step cfg now).2 = false →
       (search_web_tool cfg now api query ia http).2.2 = .error .rateLimited ∧
       (search_web_tool cfg now api query ia http).2.1 = false) ∧
    (¬ now - cfg.last_request > (cfg.window : ℚ) →
       cfg.max_requests ≤ cfg.request_count →
       (search_web_tool cfg now api query ia http).2.2 = .error .rateLimited) ∧
    ((rate_limit_step cfg now).2 = true →
       (search_web_tool cfg now api query ia http).1.request_count =
         (if now - cfg.last_request > (cfg.window : ℚ) then 0
          else cfg.request_count) + 1) := by
  refine ⟨?_, ?_, ?_, ?_⟩
  · simp only [search_web_tool]
    split <;> rfl
  · intro hrej
    simp only [search_web_tool, hrej]
    exact ⟨rfl, rfl⟩
  · intro hr hm
    have hrej : (rate_limit_step cfg now).2 = false := by
      rw [rate_limit_step_reject_no_reset cfg now hr hm]
    simp [search_web_tool, hrej]
  · intro hacc
    by_cases hr : now - cfg.last_request > (cfg.window : ℚ)
    · have hm : 0 < cfg.max_requests := by
        by_contra hm0
        have : rate_limit_step cfg now =
            ({ cfg with request_count := 0, last_request := now }, false) := by
          simp only [rate_limit_step]
          rw [if_pos hr, if_pos (by omega : 0 ≥ cfg.max_requests)]
        rw [this] at hacc
        simp at hacc
      have := rate_limit_step_accept_reset cfg now hr hm
      simp only [search_web_tool, this, if_pos hr]
      split <;> rfl
    · have hm : cfg.request_count < cfg.max_requests := by
        by_contra hm0
        have := rate_limit_step_reject_no_reset cfg now hr (by omega)
        rw [this] at hacc
        simp at hacc
      have := rate_limit_step_accept_no_reset cfg now hr hm
      simp only [search_web_tool, this, if_neg hr]
      split <;> rfl

/-- Witness for C10 at a concrete input: exhausted fresh-window state, a
call with empty API key is rejected with the rate-limit exception rather
than returning mock data. -/
theorem search_web_tool_consumes_quota_witness :
    (search_web_tool { tavilyInitialConfig with request_count := 10 } 5 ""
        "test" true (.failure "down")).2.2 = .error .rateLimited :=
  (search_web_tool_consumes_quota { tavilyInitialConfig with request_count := 10 }
      5 "" "test" true (.failure "down")).2.2.1
    (by norm_num [tavilyInitialConfig]) (by norm_num [tavilyInitialConfig])

/-! ## C4 -/

/-- C4: with a nonexistent credentials file, `authenticate_gmail_tool`
fails immediately — no retry delay is performed and no attempt body (and
hence no token load) is entered; with an existing credentials file, up to
3 attempts run with a fixed delay between them: when all 3 attempts
raise, the tool fails with an error naming the attempt count 3 after
performing 2 inter-attempt delays, and a success on a later attempt stops
the loop (shown for a success on the second attempt after one delay). -/
theorem authenticate_gmail_tool_retry :
    (∀ (path : String) (outcome : Nat → Except String String),
      authenticate_gmail_tool path false outcome = (.credsMissing path, 0, 0)) ∧
    (∀ (path : String) (outcome : Nat → Except String String) (e0 e1 e2 : String),
      outcome 0 = .error e0 → outcome 1 = .error e1 → outcome 2 = .error e2 →
      authenticate_gmail_tool path true outcome = (.failedAfter 3 e2, 2, 3)) ∧
    (∀ (path : String) (outcome : Nat → Except String String) (e0 info : String),
      outcome 0 = .error e0 → outcome 1 = .ok info →
      authenticate_gmail_tool path true outcome = (.ok info, 1, 2)) := by
  refine ⟨?_, ?_, ?_⟩
  · intro path outcome
    simp [authenticate_gmail_tool]
  · intro path outcome e0 e1 e2 h0 h1 h2
    simp [authenticate_gmail_tool, authLoop, h0, h1, h2]
  · intro path outcome e0 info h0 h1
    simp [authenticate_gmail_tool, authLoop, h0, h1]

/-- Witness for C4 at concrete oracles. -/
theorem authenticate_gmail_tool_retry_witness :
    authenticate_gmail_tool "creds.json" false (fun _ => .error "x") =
      (.credsMissing "creds.json", 0, 0) ∧
    authenticate_gmail_tool "creds.json" true (fun _ => .error "boom") =
      (.failedAfter 3 "boom", 2, 3) :=
  ⟨authenticate_gmail_tool_retry.1 "creds.json" (fun _ => .error "x"),
   authenticate_gmail_tool_retry.2.1 "creds.json" (fun _ => .error "boom")
     "boom" "boom" "boom" rfl rfl rfl⟩

/-! ## C5 -/

theorem mem_invalid_of_classify (l : List String) (e : String) (he : e ∈ l)
    (hc : classifyEmail (sanitize_input e 254) = .invalid) :
    sanitize_input e 254 ∈ (validate_email_addresses_tool l).invalid_emails := by
  have hfil := validateLoop_eq_filter l
  simp only [validate_email_addresses_tool, hfil]
  rw [List.mem_filter]
  exact ⟨List.mem_map_of_mem _ he, by simp [hc]⟩

/-- C5: the Email Agent's `create_gmail_draft` validates every recipient
of `to`, `cc` and `bcc` before any draft creation: the draft tool is
invoked only when the combined invalid list is empty; when it is
non-empty the result is the structured `success:false` outcome listing
the valid and invalid addresses, with no draft-creation call; and any
recipient in `to`, `cc` or `bcc` whose sanitized form is classified
invalid forces that failure path and appears in the reported invalid
list. -/
theorem create_gmail_draft_validates_first (tos : List String)
    (cc bcc : Option (List String)) (tool : DraftToolOutcome) :
    ((create_gmail_draft tos cc bcc tool).1 = true →
       combinedInvalid tos cc bcc = []) ∧
    (combinedInvalid tos cc bcc ≠ [] →
       create_gmail_draft tos cc bcc tool =
         (false, .invalidRecipients
            (validate_email_addresses_tool tos).valid_emails
            (combinedInvalid tos cc bcc))) ∧
    (∀ e, (e ∈ tos ∨ (∃ l, cc = some l ∧ e ∈ l) ∨ (∃ l, bcc = some l ∧ e ∈ l)) →
       classifyEmail (sanitize_input e 254) = .invalid →
       (create_gmail_draft tos cc bcc tool).1 = false ∧
       sanitize_input e 254 ∈ combinedInvalid tos cc bcc) := by
  have hfail : combinedInvalid tos cc bcc ≠ [] →
      create_gmail_draft tos cc bcc tool =
        (false, .invalidRecipients
           (validate_email_addresses_tool tos).valid_emails
           (combinedInvalid tos cc bcc)) := by
    intro hi
    simp only [create_gmail_draft, if_pos hi]
  refine ⟨?_, hfail, ?_⟩
  · by_cases hi : combinedInvalid tos cc bcc = []
    · exact fun _ => hi
    · intro h
      rw [hfail hi] at h
      simp at h
  · intro e hsrc hc
    have hmem : sanitize_input e 254 ∈ combinedInvalid tos cc bcc := by
      rcases hsrc with he | ⟨l, hcc, he⟩ | ⟨l, hbcc, he⟩
      · unfold combinedInvalid
        exact List.mem_append_left _
          (List.mem_append_left _ (mem_invalid_of_classify tos e he hc))
      · subst hcc
        unfold combinedInvalid
        refine List.mem_append_left _ (List.mem_append_right _ ?_)
        show sanitize_input e 254 ∈
          if l ≠ [] then (validate_email_addresses_tool l).invalid_emails else []
        rw [if_pos (List.ne_nil_of_mem he)]
        exact mem_invalid_of_classify l e he hc
      · subst hbcc
        unfold combinedInvalid
        refine List.mem_append_right _ ?_
        show sanitize_input e 254 ∈
          if l ≠ [] then (validate_email_addresses_tool l).invalid_emails else []
        rw [if_pos (List.ne_nil_of_mem he)]
        exact mem_invalid_of_classify l e he hc
    have hne : combinedInvalid tos cc bcc ≠ [] := List.ne_nil_of_mem hmem
    exact ⟨by rw [hfail hne], hmem⟩

/-- Witness for C5 at a concrete input: one invalid recipient among `to`,
the draft tool never invoked. -/
theorem create_gmail_draft_validates_first_witness :
    (create_gmail_draft ["not-an-email"] none none (.ok "draft-1")).1 = false ∧
    create_gmail_draft ["not-an-email"] none none (.ok "draft-1") =
      (false, .invalidRecipients [] ["not-an-email"]) := by
  have h := create_gmail_draft_validates_first ["not-an-email"] none none (.ok "draft-1")
  have hinv := h.2.1 (by decide)
  refine ⟨by rw [hinv], ?_⟩
  rw [hinv]
  have h1 : (validate_email_addresses_tool ["not-an-email"]).valid_emails = [] := by
    decide
  have h2 : combinedInvalid ["not-an-email"] none none = ["not-an-email"] := by
    decide
  rw [h1, h2]

/-! ## C6 -/

/-- C6: `delegate_to_email_agent` returns exactly one
`AgentDelegationResponse` whose `target_agent` is `"email_agent"`, whose
`success` is false exactly when the nested Email-Agent run raised, and
whose `agent_response` embeds the failure reason in that case rather than
re-raising it. -/
theorem delegate_to_email_agent_spec (r : Except String String) :
    (delegate_to_email_agent r).target_agent = "email_agent" ∧
    ((delegate_to_email_agent r).success = false ↔ ∃ e, r = .error e) ∧
    (∀ e, r = .error e →
      (delegate_to_email_agent r).agent_response = "Delegation failed: " ++ e) := by
  cases r with
  | ok out => refine ⟨rfl, ?_, ?_⟩ <;> simp [delegate_to_email_agent]
  | error e => refine ⟨rfl, ?_, ?_⟩ <;> simp [delegate_to_email_agent]

/-- Witness for C6 at a concrete input: a raising nested run. -/
theorem delegate_to_email_agent_spec_witness :
    (delegate_to_email_agent (.error "boom")).success = false ∧
    (delegate_to_email_agent (.error "boom")).agent_response =
      "Delegation failed: boom" :=
  ⟨((delegate_to_email_agent_spec (.error "boom")).2.1).mpr ⟨"boom", rfl⟩,
   (delegate_to_email_agent_spec (.error "boom")).2.2 "boom" rfl⟩

end MultiAgent
